import Mathlib

/-!
Verification development for the ISRO Mission Analyzer data pipeline.

Shallow embedding of the core of the repository:
  * `backend/data_loader.py` — `preprocess_data` (cleaning + feature engineering),
  * `backend/eda.py`          — `get_family`, `get_growth_trend`, `get_success_rates`,
                                `get_strategic_focus`, `get_orbit_complexity`,
  * `backend/ml_model.py`     — `train_model`, `predict_success` (sklearn primitives abstracted).

A pandas DataFrame is modelled by the three column-shapes that actually occur in the
pipeline: the empty frame `pd.DataFrame()` returned by `load_data` on failure (no columns
at all), a raw table freshly read from SQL (exactly the six source columns, values
nullable), and an engineered table (cleaned values plus the derived columns, and
optionally the `Family` column that the EDA functions assign in place).  Accessing a
column that does not exist raises `KeyError` in pandas; that is modelled by `Except.error`.
Rational numbers stand for the float results of pandas `mean`/`crosstab(normalize)`;
all the quantities involved are exact small fractions, so no rounding is lost.
-/

/-! ## Python string primitives -/

/-- `headMatch hay needle` — does `needle` occur at the very start of `hay`?
(Char-list core of Python's substring test.) -/
def headMatch : List Char → List Char → Bool
  | _, [] => true
  | [], _ :: _ => false
  | c :: cs, d :: ds => c == d && headMatch cs ds

/-- `subMatch hay needle` — does `needle` occur anywhere in `hay`? -/
def subMatch : List Char → List Char → Bool
  | [], p => headMatch [] p
  | c :: t, p => headMatch (c :: t) p || subMatch t p

/-- Python's `needle in hay` on strings. -/
def pyIn (hay needle : String) : Bool :=
  subMatch hay.data needle.data

/-- Python's `str.upper()` (the mission data is ASCII, where `Char.toUpper`
agrees with Python's case mapping). -/
def pyUpper (s : String) : String :=
  ⟨s.data.map Char.toUpper⟩

/-- Python's `str.lower()`. -/
def pyLower (s : String) : String :=
  ⟨s.data.map Char.toLower⟩

/-- Python's `str.strip()`: drop leading and trailing whitespace. -/
def pyStrip (s : String) : String :=
  ⟨(((s.data.dropWhile Char.isWhitespace).reverse.dropWhile Char.isWhitespace).reverse)⟩

/-- Lexicographic (code-point) comparison of char lists — the order in which
pandas sorts string group keys. -/
def charsLe : List Char → List Char → Bool
  | [], _ => true
  | _ :: _, [] => false
  | c :: cs, d :: ds => decide (c < d) || (c == d && charsLe cs ds)

/-- Lexicographic order on strings, as a decidable relation for the key sort. -/
def strLe (a b : String) : Prop := charsLe a.data b.data = true

instance : DecidableRel strLe := fun a b => Bool.decEq (charsLe a.data b.data) true

/-- Ascending order on `Int` column keys. -/
def intLe (a b : Int) : Prop := a ≤ b

instance : DecidableRel intLe := fun a b => Int.decLe a b

/-! ## Dates

`launch_date` values are modelled as parsed calendar dates; a raw cell that
`pd.to_datetime` would fail to parse is `none` in a `RawRow`. -/

structure Date where
  year : Int
  month : Nat
  day : Nat
deriving DecidableEq, Repr

/-- Chronological comparison of dates (the order `sort_values(by='launch_date')` uses). -/
def dateLe (a b : Date) : Bool :=
  decide (a.year < b.year) ||
    (a.year == b.year &&
      (decide (a.month < b.month) || (a.month == b.month && decide (a.day ≤ b.day))))

/-- `launch_date.dt.month_name()`. -/
def monthName : Nat → String
  | 1 => "January"
  | 2 => "February"
  | 3 => "March"
  | 4 => "April"
  | 5 => "May"
  | 6 => "June"
  | 7 => "July"
  | 8 => "August"
  | 9 => "September"
  | 10 => "October"
  | 11 => "November"
  | 12 => "December"
  | _ => ""

/-! ## The data model -/

/-- One row of the raw `isro_space_missions` table as read by `pd.read_sql_query`:
the six source columns, each value possibly SQL NULL (and the date possibly
unparseable, also modelled as `none` after the `pd.to_datetime` step). -/
structure RawRow where
  launch_vehicle : Option String
  orbit_type : Option String
  application : Option String
  outcome : Option String
  launch_site : Option String
  launch_date : Option Date
deriving DecidableEq, Repr

/-- One row after `preprocess_data`: cleaned source columns plus the derived columns. -/
structure Row where
  launch_vehicle : String
  orbit_type : String
  application : String
  outcome : String
  launch_site : String
  launch_date : Date
  outcome_norm : String
  Success_Flag : Nat
  Year : Int
  Month : String
  Cumulative_Launches : Nat
deriving DecidableEq, Repr

/-- The DataFrame shapes reachable in the pipeline.  `fam` is the `Family` column
(present after an EDA call assigned it, absent on a fresh frame). -/
inductive DF where
  | noCols : DF
  | raw : List RawRow → Option (List String) → DF
  | eng : List Row → Option (List String) → DF
deriving DecidableEq, Repr

/-! ## Sorting helpers (executable, structural) -/

/-- Comparison by launch date, as a decidable relation for the stable sort. -/
def rowDateRel (a b : Row) : Prop := dateLe a.launch_date b.launch_date = true

instance : DecidableRel rowDateRel := fun a b => by unfold rowDateRel; infer_instance

/-- The sorted list of distinct values of a column (pandas `groupby` key order:
distinct keys, ascending). -/
def sortedKeys (l : List String) : List String :=
  List.insertionSort strLe l.dedup

/-- The sorted list of distinct `Int` values of a column. -/
def sortedKeysInt (l : List Int) : List Int :=
  List.insertionSort intLe l.dedup

/-! ## `data_loader.preprocess_data` -/

/-- `series.mode()[0]`: the most frequent value, smallest first on ties
(pandas `mode` returns the tied values sorted); `none` when there are no values
(in which case `mode()[0]` is an `IndexError`). -/
def listMode (l : List String) : Option String :=
  let keys := sortedKeys l
  let m := (keys.map fun v => l.count v).foldr max 0
  keys.find? fun v => l.count v == m

/-- `df['outcome'].str.lower().str.strip()` applied to one cell. -/
def outcomeNorm (s : String) : String :=
  pyStrip (pyLower s)

/-- `lambda x: 1 if 'success' in x and 'unsuccessful' not in x else 0`
(applied to the normalized outcome). -/
def successFlagOfNorm (x : String) : Nat :=
  if pyIn x "success" && !pyIn x "unsuccessful" then 1 else 0

/-- Build the engineered row (before `Cumulative_Launches` is assigned) from the
null-filled source cells and the parsed date: steps 2–4 of `preprocess_data`. -/
def deriveRow (lv ot ap oc ls : String) (d : Date) : Row :=
  let onm := outcomeNorm oc
  { launch_vehicle := lv
    orbit_type := ot
    application := ap
    outcome := oc
    launch_site := ls
    launch_date := d
    outcome_norm := onm
    Success_Flag := successFlagOfNorm onm
    Year := d.year
    Month := monthName d.month
    Cumulative_Launches := 0 }

/-- `df['Cumulative_Launches'] = range(1, len(df) + 1)` after the sort. -/
def numberFrom : Nat → List Row → List Row
  | _, [] => []
  | n, r :: t => { r with Cumulative_Launches := n } :: numberFrom (n + 1) t

/-- The non-empty branch of `preprocess_data`: null-fill the five categorical
columns with their modes (`IndexError` when a column has no values at all),
derive `outcome_norm`/`Success_Flag`/`Year`/`Month` (`pd.to_datetime` raises on an
unparseable date), sort by `launch_date` and assign `Cumulative_Launches = 1..N`.
The sort is modelled as a stable sort; nota bene: pandas `sort_values` defaults to
`kind='quicksort'`, which the pandas documentation does not guarantee to be stable
(relevant to the tie-break behaviour, see the claim analysis). -/
def preprocessRaw (rows : List RawRow) : Except String (List Row) :=
  match listMode (rows.filterMap RawRow.launch_vehicle),
        listMode (rows.filterMap RawRow.orbit_type),
        listMode (rows.filterMap RawRow.application),
        listMode (rows.filterMap RawRow.outcome),
        listMode (rows.filterMap RawRow.launch_site) with
  | some mLV, some mOT, some mAP, some mOC, some mLS =>
      if rows.all fun r => r.launch_date.isSome then
        Except.ok (numberFrom 1 (List.insertionSort rowDateRel (rows.map fun r =>
          deriveRow (r.launch_vehicle.getD mLV) (r.orbit_type.getD mOT)
            (r.application.getD mAP) (r.outcome.getD mOC) (r.launch_site.getD mLS)
            (r.launch_date.getD ⟨0, 0, 0⟩))))
      else Except.error "DataIntegrityError: unparseable launch_date"
  | _, _, _, _, _ => Except.error "IndexError: mode of a column with no values"

/-- Project an engineered row back onto its source cells (used only for the
`preprocess_data` branch that re-engineers an already engineered frame, which the
pipeline never exercises: `load_data` calls `preprocess_data` exactly once, on the
raw table). -/
def Row.toRaw (r : Row) : RawRow :=
  { launch_vehicle := some r.launch_vehicle
    orbit_type := some r.orbit_type
    application := some r.application
    outcome := some r.outcome
    launch_site := some r.launch_site
    launch_date := some r.launch_date }

/-- `data_loader.preprocess_data`: identity on an empty frame (`if df.empty: return df`),
otherwise cleaning + feature engineering. -/
def preprocess_data : DF → Except String DF
  | DF.noCols => Except.ok DF.noCols
  | DF.raw rows fam =>
      if rows.isEmpty then Except.ok (DF.raw rows fam)
      else (preprocessRaw rows).map fun rs => DF.eng rs none
  | DF.eng rows fam =>
      if rows.isEmpty then Except.ok (DF.eng rows fam)
      else (preprocessRaw (rows.map Row.toRaw)).map fun rs => DF.eng rs none

/-! ## `eda.py` -/

/-- `eda.get_family` (defined twice verbatim inside `get_success_rates` and
`get_orbit_complexity`): substring match on the uppercased vehicle name,
checked in priority order PSLV → GSLV/LVM3 → SLV → Other. -/
def get_family (name : String) : String :=
  let n := pyUpper name
  if pyIn n "PSLV" then "PSLV"
  else if pyIn n "GSLV" || pyIn n "LVM3" then "GSLV/LVM3"
  else if pyIn n "SLV" then "SLV/ASLV"
  else "Other"

/-- The `Family` value of an engineered row. -/
def famOf (r : Row) : String := get_family r.launch_vehicle

/-- Record shape of `get_growth_trend` output. -/
structure TrendRec where
  Year : Int
  Mission_Count : Nat
deriving DecidableEq, Repr

/-- `eda.get_growth_trend`: `df.groupby('Year').size()`, keys ascending.
`KeyError` when the `Year` column does not exist (empty frame or raw table). -/
def get_growth_trend : DF → Except String (List TrendRec × DF)
  | DF.noCols => Except.error "KeyError: Year"
  | DF.raw _ _ => Except.error "KeyError: Year"
  | DF.eng rows fam =>
      let ys := sortedKeysInt (rows.map Row.Year)
      Except.ok
        (ys.map fun y => ⟨y, (rows.filter fun r => r.Year == y).length⟩, DF.eng rows fam)

/-- Record shape of `get_success_rates` output. -/
structure SRRec where
  Family : String
  Total_Launches : Nat
  Success_Rate : ℚ
deriving DecidableEq, Repr

/-- Descending order on `Total_Launches` (for `sort_values(ascending=False)`). -/
def srDesc (a b : SRRec) : Prop := b.Total_Launches ≤ a.Total_Launches

instance : DecidableRel srDesc := fun a b => by unfold srDesc; infer_instance

instance : IsTotal SRRec srDesc :=
  ⟨fun a b => by unfold srDesc; exact Nat.le_total _ _⟩

instance : IsTrans SRRec srDesc :=
  ⟨fun _ _ _ hab hbc => Nat.le_trans hbc hab⟩

/-- `df.groupby('Family')['Success_Flag'].agg(['count', 'mean'])`: one record per
distinct family (keys ascending), with the group size and the group mean. -/
def srStats (rows : List Row) : List SRRec :=
  (sortedKeys (rows.map famOf)).map fun f =>
    let g := rows.filter fun r => famOf r == f
    ⟨f, g.length, ((g.map Row.Success_Flag).sum : ℚ) / (g.length : ℚ)⟩

/-- `eda.get_success_rates`: assigns `df['Family']` in place (a mutation of the
caller's frame), groups by `Family`, aggregates count and mean of `Success_Flag`,
sorts by `Total_Launches` descending and keeps the top 3.  On the empty frame or a
raw table the required column lookups raise `KeyError` (on the raw table the
`Family` assignment itself also dies on a NULL vehicle name). -/
def get_success_rates : DF → Except String (List SRRec × DF)
  | DF.noCols => Except.error "KeyError: launch_vehicle"
  | DF.raw _ _ => Except.error "KeyError: Success_Flag"
  | DF.eng rows _ =>
      Except.ok ((List.insertionSort srDesc (srStats rows)).take 3,
        DF.eng rows (some (rows.map famOf)))

/-- Record shape of `get_strategic_focus` output. -/
structure FocusRec where
  Application : String
  Count : Nat
deriving DecidableEq, Repr

/-- Descending order on `Count` (for `value_counts()`). -/
def fcDesc (a b : FocusRec) : Prop := b.Count ≤ a.Count

instance : DecidableRel fcDesc := fun a b => by unfold fcDesc; infer_instance

instance : IsTotal FocusRec fcDesc :=
  ⟨fun a b => by unfold fcDesc; exact Nat.le_total _ _⟩

instance : IsTrans FocusRec fcDesc :=
  ⟨fun _ _ _ hab hbc => Nat.le_trans hbc hab⟩

/-- `series.value_counts()`: distinct values with their counts, most frequent first. -/
def valueCounts (l : List String) : List FocusRec :=
  List.insertionSort fcDesc ((sortedKeys l).map fun a => ⟨a, l.count a⟩)

/-- `eda.get_strategic_focus`: `df['application'].value_counts()`; read-only.
`KeyError` on the empty frame (no `application` column); on a raw table
`value_counts` skips NULLs. -/
def get_strategic_focus : DF → Except String (List FocusRec × DF)
  | DF.noCols => Except.error "KeyError: application"
  | DF.raw rows fam =>
      Except.ok (valueCounts (rows.filterMap RawRow.application), DF.raw rows fam)
  | DF.eng rows fam =>
      Except.ok (valueCounts (rows.map Row.application), DF.eng rows fam)

/-- Record shape of one `get_orbit_complexity` output row: the `Family` value plus
one cell per orbit-type column of the crosstab (columns ascending, dense). -/
structure OCRec where
  Family : String
  cells : List (String × ℚ)
deriving DecidableEq, Repr

/-- `pd.crosstab(fam, orbit, normalize='index').reset_index().to_dict('records')`
over the list of (Family, orbit_type) pairs: one output row per distinct family
(ascending), one cell per distinct orbit type occurring anywhere (ascending),
each cell the fraction of the family's rows having that orbit type. -/
def orbitCrosstab (pairs : List (String × String)) : List OCRec :=
  let orbs := sortedKeys (pairs.map Prod.snd)
  (sortedKeys (pairs.map Prod.fst)).map fun f =>
    let g := pairs.filter fun p => p.1 == f
    ⟨f, orbs.map fun o => (o, ((g.filter fun p => p.2 == o).length : ℚ) / (g.length : ℚ))⟩

/-- `eda.get_orbit_complexity`: assigns `df['Family']` in place when the column is
absent, then returns the row-normalized Family × orbit_type crosstab.  `KeyError`
on the empty frame; on a raw table a NULL vehicle kills the `Family` assignment
(`AttributeError`), otherwise `crosstab` drops NULL-orbit rows. -/
def get_orbit_complexity : DF → Except String (List OCRec × DF)
  | DF.noCols => Except.error "KeyError: launch_vehicle"
  | DF.raw rows fam =>
      match fam with
      | some f =>
          let pairs := (f.zip (rows.map RawRow.orbit_type)).filterMap
            fun p => p.2.map fun o => (p.1, o)
          Except.ok (orbitCrosstab pairs, DF.raw rows (some f))
      | none =>
          match rows.mapM RawRow.launch_vehicle with
          | none => Except.error "AttributeError: NoneType has no upper"
          | some vs =>
              let f := vs.map get_family
              let pairs := (f.zip (rows.map RawRow.orbit_type)).filterMap
                fun p => p.2.map fun o => (p.1, o)
              Except.ok (orbitCrosstab pairs, DF.raw rows (some f))
  | DF.eng rows fam =>
      match fam with
      | some f =>
          Except.ok (orbitCrosstab (f.zip (rows.map Row.orbit_type)), DF.eng rows (some f))
      | none =>
          let f := rows.map famOf
          Except.ok (orbitCrosstab (f.zip (rows.map Row.orbit_type)), DF.eng rows (some f))

/-- The sparse count table the SPEC describes for `orbit_complexity`
(modelled from the spec's words, for comparison with the source's crosstab):
"group by (Family, orbit_type); return {source=Family, target=orbit_type,
value=count} for every observed combination". -/
def orbitComplexitySpec (rows : List Row) : List (String × String × Nat) :=
  let pairs := rows.map fun r => (famOf r, r.orbit_type)
  ((sortedKeys (pairs.map Prod.fst)).map fun f =>
    (sortedKeys ((pairs.filter fun p => p.1 == f).map Prod.snd)).map fun o =>
      (f, o, (pairs.filter fun p => p.1 == f && p.2 == o).length)).flatten

/-- Flatten the crosstab rows into (source, target, value) triples, the reading of
the code's output that the spec's record shape induces. -/
def flattenOC (l : List OCRec) : List (String × String × ℚ) :=
  (l.map fun rec => rec.cells.map fun c => (rec.Family, c.1, c.2)).flatten

/-- Does the crosstab output contain a zero-valued cell? -/
def hasZeroCell (e : Except String (List OCRec × DF)) : Bool :=
  match e with
  | Except.ok (recs, _) => recs.any fun rec => rec.cells.any fun c => c.2 == 0
  | Except.error _ => false

/-! ## `ml_model.py`

The sklearn primitives (stratified split, one-hot + random-forest pipeline fit,
batch predict, the metric functions) are deterministic library functions; they are
abstracted as fields of `Sklearn`, each taking the seed / hyperparameters exactly
where the source passes `random_state=42`, `test_size=0.2`, `n_estimators=100`.
A fitted pipeline is its observed class labels plus its probability function. -/

/-- A fitted `OneHotEncoder + RandomForestClassifier` pipeline: `classes_` and
`predict_proba` on a single (vehicle, orbit) row. -/
structure PipeModel where
  classes : List Nat
  proba : String → String → List ℚ

/-- The metric dict cached in `model_metrics`. -/
structure Metrics where
  Accuracy : ℚ
  Precision : ℚ
  Recall : ℚ
  F1 : ℚ
  ROC_AUC : ℚ

/-- The module-level globals of `ml_model.py` (`model_pipeline = None`,
`model_metrics = {}` at import time). -/
structure TrainState where
  model_pipeline : Option PipeModel
  model_metrics : Option Metrics

/-- The initial module state. -/
def initialState : TrainState := ⟨none, none⟩

/-- Deterministic sklearn primitives, seeds passed explicitly. -/
structure Sklearn where
  trainTestSplit : List (String × String) → List Nat → ℚ → Nat → List Nat →
    List (String × String) × List (String × String) × List Nat × List Nat
  rfFit : Nat → Nat → List (String × String) → List Nat → PipeModel
  predict : PipeModel → List (String × String) → List Nat
  accuracy_score : List Nat → List Nat → ℚ
  precision_score : List Nat → List Nat → ℚ
  recall_score : List Nat → List Nat → ℚ
  f1_score : List Nat → List Nat → ℚ
  roc_auc_score : List Nat → List ℚ → ℚ

/-- `ml_model.train_model`: features (launch_vehicle, orbit_type), target
Success_Flag; stratified 80/20 split with `random_state=42`; 100-tree forest with
`random_state=42`; metrics on the held-out test set, ROC-AUC defaulting to 1/2
unless both classes appear; overwrites the cached state. -/
def train_model (sk : Sklearn) (rows : List Row) (_st : TrainState) :
    Metrics × TrainState :=
  let X := rows.map fun r => (r.launch_vehicle, r.orbit_type)
  let y := rows.map Row.Success_Flag
  let (Xtr, Xte, ytr, yte) := sk.trainTestSplit X y (1 / 5) 42 y
  let clf := sk.rfFit 100 42 Xtr ytr
  let ypred := sk.predict clf Xte
  let hasBoth := decide (1 < clf.classes.length) && decide (1 < yte.dedup.length)
  let auc :=
    if hasBoth then
      let idx := clf.classes.indexOf 1
      sk.roc_auc_score yte (Xte.map fun p => (clf.proba p.1 p.2).getD idx 0)
    else (1 : ℚ) / 2
  let m : Metrics :=
    ⟨sk.accuracy_score yte ypred, sk.precision_score yte ypred,
      sk.recall_score yte ypred, sk.f1_score yte ypred, auc⟩
  (m, ⟨some clf, some m⟩)

/-- `ml_model.predict_success`: `None` (ModelNotReady) when no pipeline is cached;
otherwise the predicted probability of class 1, or `0.0` when class 1 was never
seen in training.  `Except.error` stands for a raised exception (unreachable under
the sklearn row-shape invariants). -/
def predict_success (st : TrainState) (vehicle orbit : String) :
    Except String (Option ℚ) :=
  match st.model_pipeline with
  | none => Except.ok none
  | some m =>
      let probs := m.proba vehicle orbit
      if 1 ∈ m.classes then
        match probs.get? (m.classes.indexOf 1) with
        | some p => Except.ok (some p)
        | none => Except.error "IndexError"
      else Except.ok (some 0)

/-- Does the frame carry the derived feature columns
(`outcome_norm`, `Success_Flag`, `Year`, `Month`, `Cumulative_Launches`)? -/
def hasDerivedCols : DF → Bool
  | DF.eng _ _ => true
  | _ => false

/-! ## Concrete sample data (used by counterexamples and witnesses) -/

/-- A raw mission record with every field present. -/
def rawSample (lv ot ap oc : String) (d : Date) : RawRow :=
  { launch_vehicle := some lv
    orbit_type := some ot
    application := some ap
    outcome := some oc
    launch_site := some "Sriharikota"
    launch_date := some d }

/-- A small engineered row built by the same derivation the pipeline uses. -/
def engSample (lv ot ap oc : String) (d : Date) (k : Nat) : Row :=
  { deriveRow lv ot ap oc "Sriharikota" d with Cumulative_Launches := k }

def rowPSLV : Row :=
  engSample "PSLV-C45" "LEO" "Earth Observation" "Launch Successful" ⟨2019, 4, 1⟩ 1

def rowPSLV2 : Row :=
  engSample "PSLV-C46" "LEO" "Earth Observation" "Launch Successful" ⟨2019, 5, 22⟩ 2

def rowGSLV : Row :=
  engSample "GSLV Mk III" "GTO" "Communication" "Launch Unsuccessful" ⟨2019, 7, 22⟩ 3

/-- Three engineered records: two PSLV/LEO, one GSLV/GTO. -/
def sampleRows : List Row := [rowPSLV, rowPSLV2, rowGSLV]

/-! ## Helper lemmas -/

theorem mem_sortedKeys {a : String} {l : List String} : a ∈ sortedKeys l ↔ a ∈ l := by
  unfold sortedKeys
  rw [(List.perm_insertionSort strLe l.dedup).mem_iff]
  exact List.mem_dedup

theorem nodup_sortedKeys (l : List String) : (sortedKeys l).Nodup :=
  (List.perm_insertionSort strLe l.dedup).nodup_iff.mpr (List.nodup_dedup l)

theorem mem_numberFrom {r : Row} :
    ∀ {n : Nat} {l : List Row}, r ∈ numberFrom n l →
      ∃ r' ∈ l, r = { r' with Cumulative_Launches := r.Cumulative_Launches } := by
  intro n l
  induction l generalizing n with
  | nil => simp [numberFrom]
  | cons a t ih =>
      intro h
      simp only [numberFrom, List.mem_cons] at h
      rcases h with h | h
      · subst h
        exact ⟨a, List.mem_cons_self a t, rfl⟩
      · obtain ⟨r', hr', he⟩ := ih h
        exact ⟨r', List.mem_cons_of_mem a hr', he⟩

theorem mean_mem_unit (g : List Nat) (h1 : ∀ x ∈ g, x ≤ 1) (h2 : g ≠ []) :
    0 ≤ ((g.sum : ℚ) / (g.length : ℚ)) ∧ (g.sum : ℚ) / (g.length : ℚ) ≤ 1 := by
  have hlen : 0 < g.length := List.length_pos.mpr h2
  have hsum : g.sum ≤ g.length := by
    simpa using List.sum_le_card_nsmul g 1 h1
  constructor
  · exact div_nonneg (by positivity) (by positivity)
  · rw [div_le_one (by exact_mod_cast hlen)]
    exact_mod_cast hsum

/-! ## Claim theorems -/

/-- Claim C2 — evaluation of the code at the failing input: on the empty DataFrame
that `load_data` returns on failure (`pd.DataFrame()`, no rows and no columns),
every aggregation function raises a missing-column `KeyError` instead of returning
an empty sequence, contradicting the claim (code bug: the spec's error-handling
design, and `main.py`'s own guarded treatment of the empty frame elsewhere, make
the intent clear). -/
theorem aggregations_raise_on_empty_frame :
    get_growth_trend DF.noCols = Except.error "KeyError: Year" ∧
    get_success_rates DF.noCols = Except.error "KeyError: launch_vehicle" ∧
    get_strategic_focus DF.noCols = Except.error "KeyError: application" ∧
    get_orbit_complexity DF.noCols = Except.error "KeyError: launch_vehicle" :=
  ⟨rfl, rfl, rfl, rfl⟩

/-- Claim C3 — counterexample: `get_success_rates` is not read-only; on a concrete
engineered dataset without a `Family` column it returns a mutated dataset (the
`Family` column has been assigned in place), so the claim that every aggregation
leaves the Dataset unchanged is false. -/
theorem success_rates_mutates_dataset :
    (get_success_rates (DF.eng sampleRows none)).toOption.map Prod.snd ≠
      some (DF.eng sampleRows none) := by decide

/-- Claim C3 — amended: `get_growth_trend` and `get_strategic_focus` leave the
engineered Dataset unchanged; `get_success_rates` always (re)assigns the `Family`
column to `get_family` of `launch_vehicle`, and `get_orbit_complexity` assigns it
exactly when absent; the records themselves, their order, and every other column
are unchanged in all four cases. -/
theorem aggregation_frame_effects :
    ∀ (rows : List Row) (fam : Option (List String)),
      (get_growth_trend (DF.eng rows fam)).toOption.map Prod.snd = some (DF.eng rows fam) ∧
      (get_strategic_focus (DF.eng rows fam)).toOption.map Prod.snd = some (DF.eng rows fam) ∧
      (get_success_rates (DF.eng rows fam)).toOption.map Prod.snd =
        some (DF.eng rows (some (rows.map famOf))) ∧
      (get_orbit_complexity (DF.eng rows fam)).toOption.map Prod.snd =
        some (DF.eng rows (some (fam.getD (rows.map famOf)))) := by
  intro rows fam
  refine ⟨rfl, rfl, rfl, ?_⟩
  cases fam <;> rfl

/-- Claim C9: training is deterministic and idempotent — the cached result of
`train_model` depends only on the dataset and the (fixed-seed) sklearn primitives,
never on the previously cached state, so running it twice on the identical dataset
reproduces the identical metrics and model state. -/
theorem train_model_deterministic_idempotent :
    ∀ (sk : Sklearn) (rows : List Row) (st st' : TrainState),
      train_model sk rows st = train_model sk rows st' ∧
      train_model sk rows (train_model sk rows st).2 = train_model sk rows st :=
  fun _ _ _ _ => ⟨rfl, rfl⟩

/-- Claim C10: `preprocess_data` returns an empty frame unchanged (no derived
columns added), and a successfully engineered result carries the derived columns
exactly when the input table is non-empty. -/
theorem preprocess_empty_identity_derived_iff :
    preprocess_data DF.noCols = Except.ok DF.noCols ∧
    (∀ fam, preprocess_data (DF.raw [] fam) = Except.ok (DF.raw [] fam)) ∧
    (∀ rows fam out, preprocess_data (DF.raw rows fam) = Except.ok out →
      hasDerivedCols out = !rows.isEmpty) := by
  refine ⟨rfl, fun _ => rfl, ?_⟩
  intro rows fam out h
  cases rows with
  | nil =>
      simp only [preprocess_data, List.isEmpty_nil, if_pos, Except.ok.injEq] at h
      rw [← h]
      rfl
  | cons a t =>
      simp only [preprocess_data, List.isEmpty_cons, Bool.false_eq_true, if_false] at h
      cases hp : preprocessRaw (a :: t) with
      | error e => rw [hp] at h; simp [Except.map] at h
      | ok rs =>
          rw [hp] at h
          simp only [Except.map, Except.ok.injEq] at h
          rw [← h]
          rfl

/-- Claim C10 — witness: a concrete one-row table is engineered to a frame that
has the derived columns, matching `!rows.isEmpty = true`. -/
theorem preprocess_empty_identity_derived_iff_witness :
    hasDerivedCols
        (DF.eng [engSample "PSLV-C45" "LEO" "EO" "Launch Successful" ⟨2019, 4, 1⟩ 1] none) =
      !([rawSample "PSLV-C45" "LEO" "EO" "Launch Successful" ⟨2019, 4, 1⟩].isEmpty) :=
  preprocess_empty_identity_derived_iff.2.2
    [rawSample "PSLV-C45" "LEO" "EO" "Launch Successful" ⟨2019, 4, 1⟩] none
    (DF.eng [engSample "PSLV-C45" "LEO" "EO" "Launch Successful" ⟨2019, 4, 1⟩ 1] none) rfl

/-- Claim C5: `Success_Flag` is 1 exactly when the lower-cased, trimmed outcome
contains "success" but not "unsuccessful"; every engineered record's
`outcome_norm` and `Success_Flag` follow this rule applied to its (cleaned)
`outcome`; and the two standard outcome strings map to 1 and 0 respectively. -/
theorem success_flag_rule :
    (∀ x : String, successFlagOfNorm x = 1 ↔
      (pyIn x "success" = true ∧ pyIn x "unsuccessful" = false)) ∧
    (∀ rows out, preprocessRaw rows = Except.ok out → ∀ r ∈ out,
      r.outcome_norm = outcomeNorm r.outcome ∧
      r.Success_Flag = successFlagOfNorm r.outcome_norm) ∧
    successFlagOfNorm (outcomeNorm "Launch Successful") = 1 ∧
    successFlagOfNorm (outcomeNorm "Launch Unsuccessful") = 0 := by
  refine ⟨?_, ?_, by decide, by decide⟩
  · intro x
    unfold successFlagOfNorm
    rcases h1 : pyIn x "success" <;> rcases h2 : pyIn x "unsuccessful" <;> simp [h1, h2]
  · intro rows out h r hr
    unfold preprocessRaw at h
    split at h
    · split at h
      · rw [Except.ok.injEq] at h
        rw [← h] at hr
        obtain ⟨r', hr', he⟩ := mem_numberFrom hr
        rw [(List.perm_insertionSort rowDateRel _).mem_iff] at hr'
        obtain ⟨rr, _, hg⟩ := List.mem_map.mp hr'
        rw [he, ← hg]
        exact ⟨rfl, rfl⟩
      · exact absurd h (by simp)
    · exact absurd h (by simp)

/-- Claim C5 — witness: the rule evaluated through the pipeline on a concrete
record with outcome "Launch Successful". -/
theorem success_flag_rule_witness :
    successFlagOfNorm (outcomeNorm "Launch Successful") = 1 ∧
    ((engSample "PSLV-C45" "LEO" "EO" "Launch Successful" ⟨2019, 4, 1⟩ 1).outcome_norm =
      outcomeNorm (engSample "PSLV-C45" "LEO" "EO" "Launch Successful" ⟨2019, 4, 1⟩ 1).outcome) :=
  ⟨success_flag_rule.2.2.1,
   (success_flag_rule.2.1 [rawSample "PSLV-C45" "LEO" "EO" "Launch Successful" ⟨2019, 4, 1⟩]
      [engSample "PSLV-C45" "LEO" "EO" "Launch Successful" ⟨2019, 4, 1⟩ 1] rfl
      (engSample "PSLV-C45" "LEO" "EO" "Launch Successful" ⟨2019, 4, 1⟩ 1)
      (List.mem_singleton.mpr rfl)).1⟩

/-- Claim C6: `get_family` checks the uppercased vehicle name for substrings in
priority order PSLV, then GSLV/LVM3, then SLV, else Other, and the four scenario
names map to their expected families. -/
theorem family_priority_rule :
    (∀ name, pyIn (pyUpper name) "PSLV" = true → get_family name = "PSLV") ∧
    (∀ name, pyIn (pyUpper name) "PSLV" = false →
      (pyIn (pyUpper name) "GSLV" = true ∨ pyIn (pyUpper name) "LVM3" = true) →
      get_family name = "GSLV/LVM3") ∧
    (∀ name, pyIn (pyUpper name) "PSLV" = false → pyIn (pyUpper name) "GSLV" = false →
      pyIn (pyUpper name) "LVM3" = false → pyIn (pyUpper name) "SLV" = true →
      get_family name = "SLV/ASLV") ∧
    (∀ name, pyIn (pyUpper name) "PSLV" = false → pyIn (pyUpper name) "GSLV" = false →
      pyIn (pyUpper name) "LVM3" = false → pyIn (pyUpper name) "SLV" = false →
      get_family name = "Other") ∧
    get_family "PSLV-C45" = "PSLV" ∧
    get_family "GSLV Mk III" = "GSLV/LVM3" ∧
    get_family "SLV-3" = "SLV/ASLV" ∧
    get_family "Rohini" = "Other" := by
  refine ⟨?_, ?_, ?_, ?_, by decide, by decide, by decide, by decide⟩
  · intro name h1
    simp [get_family, h1]
  · intro name h1 h2
    rcases h2 with h2 | h2 <;> simp [get_family, h1, h2]
  · intro name h1 h2 h3 h4
    simp [get_family, h1, h2, h3, h4]
  · intro name h1 h2 h3 h4
    simp [get_family, h1, h2, h3, h4]

/-- Claim C6 — witness: the priority rule applied at concrete names, hypotheses
discharged by evaluation. -/
theorem family_priority_rule_witness :
    get_family "PSLV-C45" = "PSLV" ∧ get_family "Rohini" = "Other" :=
  ⟨family_priority_rule.1 "PSLV-C45" (by decide),
   family_priority_rule.2.2.2.1 "Rohini" (by decide) (by decide) (by decide) (by decide)⟩

/-- Claim C7: on a non-empty engineered dataset, `get_success_rates` returns at
most 3 records, ordered by descending `Total_Launches`; each record's
`Total_Launches` is its family's record count (positive) and its `Success_Rate`
is the mean of `Success_Flag` over that family, a value in [0, 1]. -/
theorem success_rates_top3_bounds_sorted :
    ∀ (rows : List Row) (fam : Option (List String)), rows ≠ [] →
      (∀ r ∈ rows, r.Success_Flag ≤ 1) →
      ∃ recs d, get_success_rates (DF.eng rows fam) = Except.ok (recs, d) ∧
        recs.length ≤ 3 ∧
        recs.Pairwise (fun a b => b.Total_Launches ≤ a.Total_Launches) ∧
        ∀ rec ∈ recs,
          rec.Total_Launches = (rows.filter fun r => famOf r == rec.Family).length ∧
          0 < rec.Total_Launches ∧
          rec.Success_Rate =
            (((rows.filter fun r => famOf r == rec.Family).map Row.Success_Flag).sum : ℚ) /
              (((rows.filter fun r => famOf r == rec.Family).length : ℚ)) ∧
          0 ≤ rec.Success_Rate ∧ rec.Success_Rate ≤ 1 := by
  intro rows fam hne hflag
  refine ⟨(List.insertionSort srDesc (srStats rows)).take 3,
    DF.eng rows (some (rows.map famOf)), rfl, ?_, ?_, ?_⟩
  · rw [List.length_take]
    exact min_le_left _ _
  · exact (List.sorted_insertionSort srDesc (srStats rows)).sublist (List.take_sublist 3 _)
  · intro rec hrec
    have h1 : rec ∈ List.insertionSort srDesc (srStats rows) := List.mem_of_mem_take hrec
    have h2 : rec ∈ srStats rows := (List.perm_insertionSort srDesc (srStats rows)).mem_iff.mp h1
    unfold srStats at h2
    obtain ⟨f, hfk, hec⟩ := List.mem_map.mp h2
    have hfm : f ∈ rows.map famOf := mem_sortedKeys.mp hfk
    obtain ⟨r0, hr0, hfr0⟩ := List.mem_map.mp hfm
    have hg : r0 ∈ rows.filter fun r => famOf r == f := by
      rw [List.mem_filter]
      exact ⟨hr0, by simp [hfr0]⟩
    have hgne : (rows.filter fun r => famOf r == f) ≠ [] := List.ne_nil_of_mem hg
    have hflag' : ∀ x ∈ (rows.filter fun r => famOf r == f).map Row.Success_Flag, x ≤ 1 := by
      intro x hx
      obtain ⟨r, hr, hxe⟩ := List.mem_map.mp hx
      rw [← hxe]
      exact hflag r (List.mem_filter.mp hr).1
    have hb := mean_mem_unit ((rows.filter fun r => famOf r == f).map Row.Success_Flag) hflag'
      (by simpa using hgne)
    rw [List.length_map] at hb
    subst hec
    exact ⟨rfl, List.length_pos.mpr hgne, rfl, hb.1, hb.2⟩

/-- Claim C7 — witness: the theorem applied to the concrete three-row dataset. -/
theorem success_rates_top3_bounds_sorted_witness :
    ∃ recs d, get_success_rates (DF.eng sampleRows none) = Except.ok (recs, d) ∧
      recs.length ≤ 3 ∧
      recs.Pairwise (fun a b => b.Total_Launches ≤ a.Total_Launches) ∧
      ∀ rec ∈ recs,
        rec.Total_Launches = (sampleRows.filter fun r => famOf r == rec.Family).length ∧
        0 < rec.Total_Launches ∧
        rec.Success_Rate =
          (((sampleRows.filter fun r => famOf r == rec.Family).map Row.Success_Flag).sum : ℚ) /
            (((sampleRows.filter fun r => famOf r == rec.Family).length : ℚ)) ∧
        0 ≤ rec.Success_Rate ∧ rec.Success_Rate ≤ 1 :=
  success_rates_top3_bounds_sorted sampleRows none (by decide) (by decide)

/-- Claim C8: `predict_success` returns `None` (ModelNotReady, not an exception)
when no model is cached; with a cached model whose probability rows are valid
distributions (a property sklearn guarantees for every input, also for
vehicle/orbit strings never seen in training thanks to the encoder's
unknown-category tolerance) it returns the probability of class 1, a value in
[0, 1]; and when class 1 is not among the trained classes it returns exactly 0. -/
theorem predict_success_contract :
    (∀ (mm : Option Metrics) (v o : String),
      predict_success ⟨none, mm⟩ v o = Except.ok none) ∧
    (∀ (st : TrainState) (m : PipeModel) (v o : String),
      st.model_pipeline = some m →
      (m.proba v o).length = m.classes.length →
      (∀ p ∈ m.proba v o, 0 ≤ p ∧ p ≤ 1) →
      ∃ p, predict_success st v o = Except.ok (some p) ∧ 0 ≤ p ∧ p ≤ 1 ∧
        (1 ∈ m.classes → (m.proba v o).get? (m.classes.indexOf 1) = some p) ∧
        (1 ∉ m.classes → p = 0)) ∧
    (∀ (st : TrainState) (m : PipeModel) (v o : String),
      st.model_pipeline = some m → 1 ∉ m.classes →
      predict_success st v o = Except.ok (some 0)) := by
  refine ⟨fun _ _ _ => rfl, ?_, ?_⟩
  · intro st m v o hst hlen hbound
    by_cases hc : 1 ∈ m.classes
    · have hidx : m.classes.indexOf 1 < (m.proba v o).length := by
        rw [hlen]
        exact List.indexOf_lt_length.mpr hc
      obtain ⟨p, hp⟩ : ∃ p, (m.proba v o).get? (m.classes.indexOf 1) = some p :=
        ⟨_, List.get?_eq_get hidx⟩
      have hmem : p ∈ m.proba v o := List.get?_mem hp
      refine ⟨p, ?_, (hbound p hmem).1, (hbound p hmem).2, fun _ => hp,
        fun hn => absurd hc hn⟩
      unfold predict_success
      rw [hst]
      simp only [if_pos hc, hp]
    · refine ⟨0, ?_, le_refl 0, zero_le_one, fun h => absurd h hc, fun _ => rfl⟩
      unfold predict_success
      rw [hst]
      simp only [if_neg hc]
  · intro st m v o hst hc
    unfold predict_success
    rw [hst]
    simp only [if_neg hc]

/-- Claim C8 — witness: the contract applied at an untrained state, at a concrete
two-class model with probability row [1/4, 3/4] on an arbitrary input, and at a
degenerate model that never saw class 1. -/
theorem predict_success_contract_witness :
    predict_success ⟨none, none⟩ "PSLV" "SSPO" = Except.ok none ∧
    (∃ p, predict_success ⟨some ⟨[0, 1], fun _ _ => [(1 : ℚ) / 4, 3 / 4]⟩, none⟩
        "NewVehicle" "NewOrbit" = Except.ok (some p) ∧ 0 ≤ p ∧ p ≤ 1 ∧
      (1 ∈ (PipeModel.mk [0, 1] fun _ _ => [(1 : ℚ) / 4, 3 / 4]).classes →
        ((PipeModel.mk [0, 1] fun _ _ => [(1 : ℚ) / 4, 3 / 4]).proba "NewVehicle" "NewOrbit").get?
          ((PipeModel.mk [0, 1] fun _ _ => [(1 : ℚ) / 4, 3 / 4]).classes.indexOf 1) = some p) ∧
      (1 ∉ (PipeModel.mk [0, 1] fun _ _ => [(1 : ℚ) / 4, 3 / 4]).classes → p = 0)) ∧
    predict_success ⟨some ⟨[0], fun _ _ => [1]⟩, none⟩ "PSLV" "SSPO" = Except.ok (some 0) :=
  ⟨predict_success_contract.1 none "PSLV" "SSPO",
   predict_success_contract.2.1 ⟨some ⟨[0, 1], fun _ _ => [(1 : ℚ) / 4, 3 / 4]⟩, none⟩
     ⟨[0, 1], fun _ _ => [(1 : ℚ) / 4, 3 / 4]⟩ "NewVehicle" "NewOrbit" rfl rfl
     (by intro p hp; fin_cases hp <;> norm_num),
   predict_success_contract.2.2 ⟨some ⟨[0], fun _ _ => [1]⟩, none⟩ ⟨[0], fun _ _ => [1]⟩
     "PSLV" "SSPO" rfl (by decide)⟩

theorem orbitCrosstab_map_family (pairs : List (String × String)) :
    (orbitCrosstab pairs).map OCRec.Family = sortedKeys (pairs.map Prod.fst) := by
  unfold orbitCrosstab
  rw [List.map_map]
  exact List.map_id' _

theorem mem_orbitCrosstab {pairs : List (String × String)} {rec : OCRec}
    (h : rec ∈ orbitCrosstab pairs) :
    rec.Family ∈ pairs.map Prod.fst ∧
    rec.cells = (sortedKeys (pairs.map Prod.snd)).map fun o =>
      (o, (((pairs.filter fun p => p.1 == rec.Family).filter fun p => p.2 == o).length : ℚ) /
        ((pairs.filter fun p => p.1 == rec.Family).length : ℚ)) := by
  unfold orbitCrosstab at h
  obtain ⟨f, hf, he⟩ := List.mem_map.mp h
  subst he
  exact ⟨mem_sortedKeys.mp hf, rfl⟩

/-- Claim C1 — counterexample: on a concrete engineered dataset (two PSLV/LEO
records and one GSLV/GTO record) `get_orbit_complexity` returns 4 flattened
(source, target, value) cells where the spec's sparse count table has 2 observed
combinations, and one returned cell has value 0 — so the claim that the output is
one `{source, target, value=count}` record per observed combination with no zero
values is false. -/
theorem orbit_complexity_dense_zero_cells :
    ∃ recs d, get_orbit_complexity (DF.eng sampleRows none) = Except.ok (recs, d) ∧
      (flattenOC recs).length = 4 ∧
      (orbitComplexitySpec sampleRows).length = 2 ∧
      ∃ rec ∈ recs, ∃ c ∈ rec.cells, c.2 = 0 := by
  refine ⟨_, _, rfl, rfl, rfl, ?_⟩
  obtain ⟨rec, hrec, hfam⟩ :
      ∃ rec ∈ orbitCrosstab ((sampleRows.map famOf).zip (sampleRows.map Row.orbit_type)),
        rec.Family = "GSLV/LVM3" := by
    unfold orbitCrosstab
    exact ⟨_, List.mem_map_of_mem _ (by decide), rfl⟩
  obtain ⟨-, hcells⟩ := mem_orbitCrosstab hrec
  have hcmem : ("LEO",
      (((((sampleRows.map famOf).zip (sampleRows.map Row.orbit_type)).filter
          fun p => p.1 == rec.Family).filter fun p => p.2 == "LEO").length : ℚ) /
        ((((sampleRows.map famOf).zip (sampleRows.map Row.orbit_type)).filter
          fun p => p.1 == rec.Family).length : ℚ)) ∈ rec.cells := by
    rw [hcells]
    exact List.mem_map_of_mem _ (by decide)
  refine ⟨rec, hrec, _, hcmem, ?_⟩
  rw [hfam]
  have h1 : ((((sampleRows.map famOf).zip (sampleRows.map Row.orbit_type)).filter
      fun p => p.1 == "GSLV/LVM3").filter fun p => p.2 == "LEO") = [] := by decide
  rw [h1]
  simp

/-- Claim C1 — amended: for every non-empty engineered Dataset,
`get_orbit_complexity` returns one record per observed Family (not per
(Family, orbit_type) pair), and each record holds one cell per orbit_type
observed anywhere in the dataset, whose value is the row-normalized share
count(Family, orbit) / count(Family) — a rational in [0, 1], not a raw count —
and a cell's value is 0 exactly when its (Family, orbit_type) combination never
occurs (which happens whenever another family uses that orbit). -/
theorem orbit_complexity_normalized_crosstab :
    ∀ rows : List Row, rows ≠ [] →
      ∃ recs d, get_orbit_complexity (DF.eng rows none) = Except.ok (recs, d) ∧
        d = DF.eng rows (some (rows.map famOf)) ∧
        (recs.map OCRec.Family).Nodup ∧
        (∀ f, f ∈ recs.map OCRec.Family ↔ f ∈ rows.map famOf) ∧
        ∀ rec ∈ recs,
          (rec.cells.map Prod.fst).Nodup ∧
          (∀ o, o ∈ rec.cells.map Prod.fst ↔ o ∈ rows.map Row.orbit_type) ∧
          ∀ c ∈ rec.cells,
            c.2 = (((rows.filter fun r => famOf r == rec.Family).filter
                fun r => r.orbit_type == c.1).length : ℚ) /
              ((rows.filter fun r => famOf r == rec.Family).length : ℚ) ∧
            0 ≤ c.2 ∧ c.2 ≤ 1 ∧
            (c.2 = 0 ↔ ((rows.filter fun r => famOf r == rec.Family).filter
                fun r => r.orbit_type == c.1) = []) := by
  intro rows hne
  refine ⟨_, _, rfl, rfl, ?_, ?_, ?_⟩
  · rw [orbitCrosstab_map_family, List.zip_map', List.map_map]
    exact nodup_sortedKeys _
  · intro f
    rw [orbitCrosstab_map_family, List.zip_map', List.map_map, mem_sortedKeys]
    rfl
  · intro rec hrec
    rw [List.zip_map'] at hrec
    obtain ⟨hfam, hcells⟩ := mem_orbitCrosstab hrec
    have hF : ((rows.map fun r => (famOf r, r.orbit_type)).filter
        fun p => p.1 == rec.Family) =
        (rows.filter fun r => famOf r == rec.Family).map fun r => (famOf r, r.orbit_type) :=
      List.filter_map _ rows
    have hFO : ∀ o, (((rows.map fun r => (famOf r, r.orbit_type)).filter
        fun p => p.1 == rec.Family).filter fun p => p.2 == o) =
        ((rows.filter fun r => famOf r == rec.Family).filter
          fun r => r.orbit_type == o).map fun r => (famOf r, r.orbit_type) := by
      intro o
      rw [hF]
      exact List.filter_map _ _
    have hdenpos : 0 < (rows.filter fun r => famOf r == rec.Family).length := by
      rw [List.map_map] at hfam
      obtain ⟨r0, hr0, hfr0⟩ := List.mem_map.mp hfam
      refine List.length_pos.mpr (List.ne_nil_of_mem (a := r0) ?_)
      rw [List.mem_filter]
      exact ⟨hr0, by simp [← hfr0]⟩
    refine ⟨?_, ?_, ?_⟩
    · rw [hcells, List.map_map]
      exact (List.map_id' _) ▸ nodup_sortedKeys _
    · intro o
      have hfstcells : rec.cells.map Prod.fst =
          sortedKeys ((rows.map fun r => (famOf r, r.orbit_type)).map Prod.snd) := by
        rw [hcells, List.map_map]
        exact List.map_id' _
      rw [hfstcells, mem_sortedKeys, List.map_map]
      rfl
    · intro c hc
      rw [hcells] at hc
      obtain ⟨o, ho, hce⟩ := List.mem_map.mp hc
      have hval : c.2 = (((rows.filter fun r => famOf r == rec.Family).filter
          fun r => r.orbit_type == c.1).length : ℚ) /
          ((rows.filter fun r => famOf r == rec.Family).length : ℚ) := by
        rw [← hce]
        rw [hFO o, List.length_map, hF, List.length_map]
      have hnum_le : ((rows.filter fun r => famOf r == rec.Family).filter
          fun r => r.orbit_type == c.1).length ≤
          (rows.filter fun r => famOf r == rec.Family).length :=
        List.length_filter_le _ _
      refine ⟨hval, ?_, ?_, ?_⟩
      · rw [hval]
        exact div_nonneg (by positivity) (by positivity)
      · rw [hval, div_le_one (by exact_mod_cast hdenpos)]
        exact_mod_cast hnum_le
      · rw [hval]
        rw [div_eq_zero_iff]
        constructor
        · intro h
          rcases h with h | h
          · rw [← List.length_eq_zero]
            exact_mod_cast h
          · exact absurd h (by
              have : (0 : ℚ) < ((rows.filter fun r => famOf r == rec.Family).length : ℚ) := by
                exact_mod_cast hdenpos
              exact ne_of_gt this)
        · intro h
          left
          rw [h]
          simp

/-- Claim C1 — witness: the amended characterization instantiated at the concrete
three-row dataset. -/
theorem orbit_complexity_normalized_crosstab_witness :
    ∃ recs d, get_orbit_complexity (DF.eng sampleRows none) = Except.ok (recs, d) ∧
      d = DF.eng sampleRows (some (sampleRows.map famOf)) ∧
      (recs.map OCRec.Family).Nodup ∧
      (∀ f, f ∈ recs.map OCRec.Family ↔ f ∈ sampleRows.map famOf) ∧
      ∀ rec ∈ recs,
        (rec.cells.map Prod.fst).Nodup ∧
        (∀ o, o ∈ rec.cells.map Prod.fst ↔ o ∈ sampleRows.map Row.orbit_type) ∧
        ∀ c ∈ rec.cells,
          c.2 = (((sampleRows.filter fun r => famOf r == rec.Family).filter
              fun r => r.orbit_type == c.1).length : ℚ) /
            ((sampleRows.filter fun r => famOf r == rec.Family).length : ℚ) ∧
          0 ≤ c.2 ∧ c.2 ≤ 1 ∧
          (c.2 = 0 ↔ ((sampleRows.filter fun r => famOf r == rec.Family).filter
              fun r => r.orbit_type == c.1) = []) :=
  orbit_complexity_normalized_crosstab sampleRows (by decide)
